import Mathlib

/-!
Shallow embedding of the about:blank tab watchdog
(src/browser_use/browser/watchdogs/aboutblank_watchdog.py).

The watchdog subscribes to four event kinds (browser-stop, browser-stopped,
tab-created, tab-closed), holds one boolean field of local state
(the stopping flag), and calls three fallible collaborator operations:
listing the open page targets, dispatching-and-awaiting a navigate-to-url
event, and per-tab script injection (session acquisition plus script
evaluation).

Each async handler is embedded as a pure function from an environment --
which supplies the result (success value or raised exception) of every
collaborator call the handler can make -- to a trace of observable actions
together with an outcome: Except.ok when the handler returns normally,
Except.error when an uncaught exception propagates out of it.  A Python
try/except wrapper around a block is embedded as the function catchAll
applied to the block's result, exactly where the source has one.

The injected JavaScript payload is embedded as a function on an explicit
page state (idempotency flag, body presence, ready state, title, number of
appended overlay and style elements, registered retry listeners).
-/

namespace AboutBlankWatchdog

/-- A page target as returned by the listing call: target id plus url. -/
structure PageTarget where
  targetId : String
  url : String
deriving DecidableEq, Repr

/-- Observable actions a handler performs, in order: collaborator calls and
events dispatched on the bus. -/
inductive Action where
  | listPages
  | navigate (url : String) (newTab : Bool)
  | acquireSession (targetId : String)
  | evaluateScript (targetId : String)
  | emitDvdShown (targetId : String)
deriving DecidableEq, Repr

/-- Result of running a handler or helper: the trace of actions it performed,
and whether it returned normally (ok) or let an exception escape (error). -/
abbrev Res := List Action × Except Unit Unit

/-- A Python try/except-Exception-log wrapper: the actions already performed
stay performed, the exception is swallowed. -/
def catchAll (r : Res) : Res := (r.1, Except.ok ())

/-- Collaborator results for one injection call: whether
get_or_create_cdp_session succeeds and whether Runtime.evaluate succeeds. -/
structure InjectEnv where
  acquireOk : Bool
  evalOk : Bool
deriving DecidableEq, Repr

/-- Collaborator results for one run of the overlay broadcast: the result of
the listing call, and the per-target injection results. -/
structure BroadcastEnv where
  pages : Except Unit (List PageTarget)
  inj : String → InjectEnv

/-- Collaborator results for one run of _check_and_ensure_about_blank_tab. -/
structure EnsureEnv where
  pages : Except Unit (List PageTarget)
  navigateOk : Except Unit Unit
  bcast : BroadcastEnv

/-- Collaborator results for one run of on_TabClosedEvent: the first listing,
the awaited navigate event, and the environments of the helper it may call in
either branch. -/
structure TabClosedEnv where
  pages : Except Unit (List PageTarget)
  navigateOk : Except Unit Unit
  bcast : BroadcastEnv
  ensure : EnsureEnv

/-- Watchdog-local state: the single private _stopping flag. -/
structure WatchdogState where
  stopping : Bool
deriving DecidableEq, Repr

/-- Body of _show_dvd_screensaver_loading_animation_cdp before its try/except:
acquire a CDP session for the target, evaluate the script, then dispatch
AboutBlankDVDScreensaverShownEvent.  A raise at either call stops the body
there. -/
def injection_body (env : InjectEnv) (tid : String) : Res :=
  if env.acquireOk then
    if env.evalOk then
      ([Action.acquireSession tid, Action.evaluateScript tid, Action.emitDvdShown tid],
       Except.ok ())
    else
      ([Action.acquireSession tid, Action.evaluateScript tid], Except.error ())
  else
    ([Action.acquireSession tid], Except.error ())

/-- The method _show_dvd_screensaver_loading_animation_cdp: its whole body is
wrapped in try/except, so a collaborator failure is logged and swallowed. -/
def show_dvd_screensaver_loading_animation_cdp (env : InjectEnv) (tid : String) : Res :=
  catchAll (injection_body env tid)

/-- Body of _show_dvd_screensaver_on_about_blank_tabs before its try/except:
list the page targets and run the injection against every target whose url
is exactly about:blank.  The injection swallows its own failures, so only the
listing can raise here. -/
def broadcast_body (env : BroadcastEnv) : Res :=
  match env.pages with
  | Except.error e => ([Action.listPages], Except.error e)
  | Except.ok pages =>
      (Action.listPages ::
        (pages.filter (fun t => t.url == "about:blank")).flatMap
          (fun t => (show_dvd_screensaver_loading_animation_cdp (env.inj t.targetId) t.targetId).1),
       Except.ok ())

/-- The method _show_dvd_screensaver_on_about_blank_tabs, try/except around
the whole body. -/
def show_dvd_screensaver_on_about_blank_tabs (env : BroadcastEnv) : Res :=
  catchAll (broadcast_body env)

/-- Body of _check_and_ensure_about_blank_tab before its try/except: list the
page targets; if none exist, dispatch NavigateToUrlEvent(about:blank, new_tab)
and await it, then run the overlay broadcast; otherwise do nothing more. -/
def ensure_body (env : EnsureEnv) : Res :=
  match env.pages with
  | Except.error e => ([Action.listPages], Except.error e)
  | Except.ok pages =>
      if pages.length = 0 then
        match env.navigateOk with
        | Except.error e =>
            ([Action.listPages, Action.navigate "about:blank" true], Except.error e)
        | Except.ok _ =>
            ([Action.listPages, Action.navigate "about:blank" true] ++
               (show_dvd_screensaver_on_about_blank_tabs env.bcast).1,
             Except.ok ())
      else
        ([Action.listPages], Except.ok ())

/-- The method _check_and_ensure_about_blank_tab, try/except around the whole
body. -/
def check_and_ensure_about_blank_tab (env : EnsureEnv) : Res :=
  catchAll (ensure_body env)

/-- The body of on_TabClosedEvent.  There is no try/except in this method:
a raise from the first listing, or from awaiting the navigate event in the
last-tab branch, propagates out of the handler.  The helpers it calls catch
their own failures. -/
def tab_closed_result (stopping : Bool) (env : TabClosedEnv) : Res :=
  if stopping then ([], Except.ok ())
  else
    match env.pages with
    | Except.error e => ([Action.listPages], Except.error e)
    | Except.ok pages =>
        if pages.length ≤ 1 then
          match env.navigateOk with
          | Except.error e =>
              ([Action.listPages, Action.navigate "about:blank" true], Except.error e)
          | Except.ok _ =>
              ([Action.listPages, Action.navigate "about:blank" true] ++
                 (show_dvd_screensaver_on_about_blank_tabs env.bcast).1,
               Except.ok ())
        else
          let r := check_and_ensure_about_blank_tab env.ensure
          (Action.listPages :: r.1, r.2)

/-- The handler on_TabClosedEvent: reads the stopping flag, never writes
state. -/
def on_TabClosedEvent (s : WatchdogState) (env : TabClosedEnv) : WatchdogState × Res :=
  (s, tab_closed_result s.stopping env)

/-- The handler on_TabCreatedEvent: if the created tab's url is exactly
about:blank, run the overlay broadcast; otherwise do nothing.  It does not
consult the stopping flag and never writes state. -/
def on_TabCreatedEvent (s : WatchdogState) (url : String) (env : BroadcastEnv) :
    WatchdogState × Res :=
  (s, if url = "about:blank" then show_dvd_screensaver_on_about_blank_tabs env
      else ([], Except.ok ()))

/-- The handler on_BrowserStopEvent: sets the stopping flag, nothing else. -/
def on_BrowserStopEvent (s : WatchdogState) : WatchdogState × Res :=
  ({ s with stopping := true }, ([], Except.ok ()))

/-- The handler on_BrowserStoppedEvent: sets the stopping flag, nothing
else. -/
def on_BrowserStoppedEvent (s : WatchdogState) : WatchdogState × Res :=
  ({ s with stopping := true }, ([], Except.ok ()))

/-- An incoming bus event together with the collaborator environment its
handler will see. -/
inductive InEvent where
  | browserStop
  | browserStopped
  | tabCreated (url : String) (env : BroadcastEnv)
  | tabClosed (env : TabClosedEnv)

/-- Whether an incoming event is one of the two stop signals. -/
def isStopEvent : InEvent → Bool
  | InEvent.browserStop => true
  | InEvent.browserStopped => true
  | _ => false

/-- State transition of the watchdog on one incoming event: dispatch to the
matching handler and keep its returned state. -/
def stepState (s : WatchdogState) : InEvent → WatchdogState
  | InEvent.browserStop => (on_BrowserStopEvent s).1
  | InEvent.browserStopped => (on_BrowserStoppedEvent s).1
  | InEvent.tabCreated url env => (on_TabCreatedEvent s url env).1
  | InEvent.tabClosed env => (on_TabClosedEvent s env).1

/-- State after handling a whole sequence of incoming events. -/
def runState (s : WatchdogState) (evs : List InEvent) : WatchdogState :=
  evs.foldl stepState s

/-- The navigate-to-url events contained in a trace, in order. -/
def navsOf (acts : List Action) : List (String × Bool) :=
  acts.filterMap fun a =>
    match a with
    | Action.navigate u b => some (u, b)
    | _ => none

/-- The targets against which injection was attempted (session acquisition
called), in order. -/
def attemptedTargets (acts : List Action) : List String :=
  acts.filterMap fun a =>
    match a with
    | Action.acquireSession tid => some tid
    | _ => none

/-!
Page-side model of the injected JavaScript payload.  The script runs inside
one tab; its observable state is the in-page idempotency flag
(window.__vectoraiAnimationRunning), whether document.body exists, whether
document.readyState is still loading, the document title, the number of
appended loading-screen overlay elements, the number of appended style
elements, and the number of registered DOMContentLoaded retry listeners.
-/

/-- One tab's page state as touched by the injected script. -/
structure PageState where
  animationRunning : Bool
  hasBody : Bool
  loading : Bool
  title : String
  overlays : Nat
  headStyles : Nat
  pendingRetries : Nat
deriving DecidableEq, Repr

/-- The loading title the script writes and guards on. -/
def loading_title (label : String) : String :=
  "Starting Vector AI Agent " ++ label ++ "..."

/-- The injected script as a page-state transformer, following the payload
line by line: return if the idempotency flag is set; set the flag; if there
is no body, reset the flag and, when the document is still loading, register
a DOMContentLoaded retry, then return; return if the title already equals the
loading title; otherwise set the title and append the overlay element and the
style element. -/
def screensaver_script (label : String) (p : PageState) : PageState :=
  if p.animationRunning then p
  else if ¬ p.hasBody then
    { p with
      pendingRetries := if p.loading then p.pendingRetries + 1 else p.pendingRetries }
  else if p.title = loading_title label then
    { p with animationRunning := true }
  else
    { p with
      animationRunning := true
      title := loading_title label
      overlays := p.overlays + 1
      headStyles := p.headStyles + 1 }

/-!
World model for the no-browser-death invariant.  The browser holds a list of
open tabs.  Tab lifecycle events are processed sequentially; a tab-closed
notification fires before the tab is removed, so the handler runs against the
pre-removal tab list and only afterwards does the closing tab disappear.
Collaborator calls are ideal here: every listing returns the actual current
tabs and navigation succeeds.  Each navigate-to-url action with the new-tab
flag that the handler emits materialises one new tab at the given url before
the closing tab is removed.
-/

/-- Ideal broadcast environment over the actual tab list: listing returns the
tabs, every injection succeeds. -/
def idealBroadcastEnv (tabs : List PageTarget) : BroadcastEnv :=
  { pages := Except.ok tabs
    inj := fun _ => { acquireOk := true, evalOk := true } }

/-- Ideal environment for one tab-closed handler run over the actual
pre-removal tab list. -/
def idealCloseEnv (tabs : List PageTarget) : TabClosedEnv :=
  { pages := Except.ok tabs
    navigateOk := Except.ok ()
    bcast := idealBroadcastEnv tabs
    ensure :=
      { pages := Except.ok tabs
        navigateOk := Except.ok ()
        bcast := idealBroadcastEnv tabs } }

/-- Materialise the handler's emitted new-tab navigations as tabs appended to
the list, the fresh tab carrying the given id. -/
def applyNavs (navs : List (String × Bool)) (newId : String) (tabs : List PageTarget) :
    List PageTarget :=
  tabs ++ navs.filterMap fun nav =>
    if nav.2 then some { targetId := newId, url := nav.1 } else none

/-- A tab lifecycle event: a tab was created, or the tab with the given id is
closing (newId is the id any replacement tab would get). -/
inductive LifeEvent where
  | created (t : PageTarget)
  | closed (tid : String) (newId : String)

/-- One sequential world step while the watchdog is not stopping.  On
creation the tab joins the list and the tab-created handler runs (its trace
contains no navigations).  On closing, the tab-closed handler runs against
the pre-removal list, its emitted new-tab navigations materialise, and only
then is the closing tab removed. -/
def stepTabs (tabs : List PageTarget) : LifeEvent → List PageTarget
  | LifeEvent.created t =>
      applyNavs
        (navsOf (on_TabCreatedEvent { stopping := false } t.url
                  (idealBroadcastEnv (tabs ++ [t]))).2.1)
        t.targetId (tabs ++ [t])
  | LifeEvent.closed tid newId =>
      (applyNavs
        (navsOf (on_TabClosedEvent { stopping := false } (idealCloseEnv tabs)).2.1)
        newId tabs).eraseP
        (fun t => t.targetId == tid)

/-!
Helper lemmas shared by the claim theorems.
-/

theorem navsOf_append (a b : List Action) : navsOf (a ++ b) = navsOf a ++ navsOf b := by
  simp [navsOf, List.filterMap_append]

theorem attemptedTargets_append (a b : List Action) :
    attemptedTargets (a ++ b) = attemptedTargets a ++ attemptedTargets b := by
  simp [attemptedTargets, List.filterMap_append]

theorem navsOf_injection (e : InjectEnv) (tid : String) :
    navsOf (show_dvd_screensaver_loading_animation_cdp e tid).1 = [] := by
  rcases e with ⟨a, v⟩
  cases a <;> cases v <;> rfl

theorem attemptedTargets_injection (e : InjectEnv) (tid : String) :
    attemptedTargets (show_dvd_screensaver_loading_animation_cdp e tid).1 = [tid] := by
  rcases e with ⟨a, v⟩
  cases a <;> cases v <;> rfl

theorem navsOf_injection_flatMap (inj : String → InjectEnv) (ts : List PageTarget) :
    navsOf (ts.flatMap
      (fun t => (show_dvd_screensaver_loading_animation_cdp (inj t.targetId) t.targetId).1)) = [] := by
  induction ts with
  | nil => rfl
  | cons t ts ih =>
      rw [List.flatMap_cons, navsOf_append, ih, navsOf_injection]
      rfl

theorem attemptedTargets_injection_flatMap (inj : String → InjectEnv) (ts : List PageTarget) :
    attemptedTargets (ts.flatMap
      (fun t => (show_dvd_screensaver_loading_animation_cdp (inj t.targetId) t.targetId).1)) =
    ts.map (fun t => t.targetId) := by
  induction ts with
  | nil => rfl
  | cons t ts ih =>
      rw [List.flatMap_cons, attemptedTargets_append, ih, attemptedTargets_injection]
      rfl

theorem navsOf_broadcast (env : BroadcastEnv) :
    navsOf (show_dvd_screensaver_on_about_blank_tabs env).1 = [] := by
  rcases henv : env.pages with e | pages
  · simp [show_dvd_screensaver_on_about_blank_tabs, broadcast_body, catchAll, henv, navsOf]
  · simp only [show_dvd_screensaver_on_about_blank_tabs, broadcast_body, catchAll, henv]
    have h := navsOf_injection_flatMap env.inj
      (pages.filter (fun t => t.url == "about:blank"))
    simpa [navsOf] using h

theorem listPages_mem_broadcast (env : BroadcastEnv) :
    Action.listPages ∈ (show_dvd_screensaver_on_about_blank_tabs env).1 := by
  rcases henv : env.pages with e | pages <;>
    simp [show_dvd_screensaver_on_about_blank_tabs, broadcast_body, catchAll, henv]

theorem length_eraseP_ge (p : PageTarget → Bool) :
    ∀ l : List PageTarget, l.length - 1 ≤ (List.eraseP p l).length := by
  intro l
  induction l with
  | nil => simp
  | cons a l ih =>
      by_cases h : p a
      · simp [List.eraseP_cons, h]
      · simp only [List.eraseP_cons, h, cond_false, List.length_cons]
        omega

theorem stepState_stopping_mono (s : WatchdogState) (e : InEvent)
    (h : s.stopping = true) : (stepState s e).stopping = true := by
  cases e <;>
    simp [stepState, on_BrowserStopEvent, on_BrowserStoppedEvent,
      on_TabCreatedEvent, on_TabClosedEvent, h]

theorem runState_stopping_mono (evs : List InEvent) :
    ∀ s : WatchdogState, s.stopping = true → (runState s evs).stopping = true := by
  induction evs with
  | nil => intro s h; simpa [runState] using h
  | cons e evs ih =>
      intro s h
      have h1 := stepState_stopping_mono s e h
      simpa [runState, List.foldl_cons] using ih (stepState s e) h1

theorem tab_closed_result_stopping (env : TabClosedEnv) :
    tab_closed_result true env = ([], Except.ok ()) := rfl

theorem watchdogState_eq_of_stopping (s : WatchdogState) (h : s.stopping = true) :
    s = { stopping := true } := by
  cases s
  simpa using h

theorem acquire_mem_injection (e : InjectEnv) (tid : String) :
    Action.acquireSession tid ∈ (show_dvd_screensaver_loading_animation_cdp e tid).1 := by
  rcases e with ⟨a, v⟩
  cases a <;> cases v <;> simp [show_dvd_screensaver_loading_animation_cdp, injection_body, catchAll]

theorem evaluate_mem_injection (e : InjectEnv) (tid tid' : String)
    (h : Action.evaluateScript tid ∈ (show_dvd_screensaver_loading_animation_cdp e tid').1) :
    tid = tid' := by
  rcases e with ⟨a, v⟩
  cases a <;> cases v <;>
    simp [show_dvd_screensaver_loading_animation_cdp, injection_body, catchAll] at h <;>
    exact h

theorem navsOf_tab_created (s : WatchdogState) (url : String) (env : BroadcastEnv) :
    navsOf (on_TabCreatedEvent s url env).2.1 = [] := by
  by_cases h : url = "about:blank"
  · simp only [on_TabCreatedEvent, h, if_true, if_pos]
    exact navsOf_broadcast env
  · simp [on_TabCreatedEvent, h, navsOf]

theorem navsOf_tab_closed_ideal (tabs : List PageTarget) :
    navsOf (on_TabClosedEvent { stopping := false } (idealCloseEnv tabs)).2.1 =
      if tabs.length ≤ 1 then [("about:blank", true)] else [] := by
  by_cases h : tabs.length ≤ 1
  · have htr : (on_TabClosedEvent { stopping := false } (idealCloseEnv tabs)).2.1 =
        [Action.listPages, Action.navigate "about:blank" true] ++
          (show_dvd_screensaver_on_about_blank_tabs (idealBroadcastEnv tabs)).1 := by
      simp [on_TabClosedEvent, tab_closed_result, idealCloseEnv, h]
    rw [htr, navsOf_append, navsOf_broadcast, if_pos h]
    rfl
  · have h0 : ¬ (tabs.length = 0) := by omega
    have htr : (on_TabClosedEvent { stopping := false } (idealCloseEnv tabs)).2.1 =
        [Action.listPages, Action.listPages] := by
      simp [on_TabClosedEvent, tab_closed_result, idealCloseEnv, h,
        check_and_ensure_about_blank_tab, ensure_body, catchAll, h0]
    rw [htr, if_neg h]
    rfl

theorem applyNavs_nil (newId : String) (tabs : List PageTarget) :
    applyNavs [] newId tabs = tabs := by
  simp [applyNavs]

theorem applyNavs_single (newId : String) (tabs : List PageTarget) :
    applyNavs [("about:blank", true)] newId tabs =
      tabs ++ [{ targetId := newId, url := "about:blank" }] := by
  simp [applyNavs]

theorem stepTabs_length_pos (tabs : List PageTarget) (e : LifeEvent)
    (h : 1 ≤ tabs.length) : 1 ≤ (stepTabs tabs e).length := by
  cases e with
  | created t =>
      rw [stepTabs, navsOf_tab_created, applyNavs_nil]
      simp
  | closed tid newId =>
      rw [stepTabs, navsOf_tab_closed_ideal]
      by_cases hle : tabs.length ≤ 1
      · rw [if_pos hle, applyNavs_single]
        have h1 := length_eraseP_ge (fun t => t.targetId == tid)
          (tabs ++ [{ targetId := newId, url := "about:blank" }])
        simp only [List.length_append, List.length_cons, List.length_nil] at h1
        omega
      · rw [if_neg hle, applyNavs_nil]
        have h1 := length_eraseP_ge (fun t => t.targetId == tid) tabs
        omega

/-!
Claim theorems.
-/

/-- Claim C1: for every sequence of tab-created and tab-closed events processed
while the stopping flag is false, starting from a browser with at least one
open tab, the open-tab count never reaches zero; moreover whenever the
tab-closed handler observes a pre-removal count of at most one, it emits the
replacement placeholder navigation before the closing tab disappears. -/
theorem c1_no_browser_death :
    (∀ (tabs : List PageTarget) (evs : List LifeEvent),
        1 ≤ tabs.length → 1 ≤ (evs.foldl stepTabs tabs).length) ∧
    (∀ tabs : List PageTarget, tabs.length ≤ 1 →
        navsOf (on_TabClosedEvent { stopping := false } (idealCloseEnv tabs)).2.1 =
          [("about:blank", true)]) := by
  constructor
  · intro tabs evs
    induction evs generalizing tabs with
    | nil => intro h; simpa using h
    | cons e evs ih =>
        intro h
        rw [List.foldl_cons]
        exact ih _ (stepTabs_length_pos tabs e h)
  · intro tabs h
    rw [navsOf_tab_closed_ideal, if_pos h]

/-- Witness for C1 at a concrete input: one tab open, that tab closes, and the
count after the step is still at least one. -/
theorem c1_no_browser_death_witness :
    1 ≤ (([LifeEvent.closed "a" "b"]).foldl stepTabs
          [{ targetId := "a", url := "https://x" }]).length :=
  c1_no_browser_death.1 [{ targetId := "a", url := "https://x" }]
    [LifeEvent.closed "a" "b"] (by decide)

/-- Claim C5: once either stop event has been handled, every subsequent
tab-closed event, after any further events and whatever the collaborator
environment (including a zero-tab listing), performs no action at all:
state is unchanged, the trace is empty, and the handler returns normally. -/
theorem c5_stopping_suppresses_tab_closed (s : WatchdogState) (evs : List InEvent)
    (env : TabClosedEnv) :
    on_TabClosedEvent (runState (on_BrowserStopEvent s).1 evs) env =
      (runState (on_BrowserStopEvent s).1 evs, ([], Except.ok ())) ∧
    on_TabClosedEvent (runState (on_BrowserStoppedEvent s).1 evs) env =
      (runState (on_BrowserStoppedEvent s).1 evs, ([], Except.ok ())) := by
  constructor
  · have h : (runState (on_BrowserStopEvent s).1 evs).stopping = true :=
      runState_stopping_mono evs _ rfl
    rw [on_TabClosedEvent, h, tab_closed_result_stopping]
  · have h : (runState (on_BrowserStoppedEvent s).1 evs).stopping = true :=
      runState_stopping_mono evs _ rfl
    rw [on_TabClosedEvent, h, tab_closed_result_stopping]

/-- Claim C8: each stop-event handler's only effect is setting the stopping
flag; handling the two stop events any number of times in any order from any
state yields the state with the flag set; and no handler ever resets the flag
once it is true. -/
theorem c8_stop_handlers_idempotent_and_irreversible :
    (∀ s : WatchdogState,
        on_BrowserStopEvent s = ({ stopping := true }, ([], Except.ok ())) ∧
        on_BrowserStoppedEvent s = ({ stopping := true }, ([], Except.ok ()))) ∧
    (∀ (s : WatchdogState) (evs : List InEvent),
        evs ≠ [] → (∀ e ∈ evs, isStopEvent e = true) →
        runState s evs = { stopping := true }) ∧
    (∀ (s : WatchdogState) (e : InEvent),
        s.stopping = true → (stepState s e).stopping = true) := by
  refine ⟨fun s => ⟨rfl, rfl⟩, ?_, stepState_stopping_mono⟩
  intro s evs hne hall
  cases evs with
  | nil => exact absurd rfl hne
  | cons e evs =>
      have he : isStopEvent e = true := hall e (List.mem_cons_self e evs)
      have h1 : (stepState s e).stopping = true := by
        cases e <;> simp_all [isStopEvent, stepState, on_BrowserStopEvent, on_BrowserStoppedEvent]
      have h2 : (runState s (e :: evs)).stopping = true := by
        have := runState_stopping_mono evs (stepState s e) h1
        simpa [runState, List.foldl_cons] using this
      exact watchdogState_eq_of_stopping _ h2

/-- Witness for C8 at a concrete input: three stop events in mixed order from
the initial state leave the watchdog stopped. -/
theorem c8_stop_handlers_witness :
    runState { stopping := false }
      [InEvent.browserStop, InEvent.browserStopped, InEvent.browserStop] =
      { stopping := true } :=
  c8_stop_handlers_idempotent_and_irreversible.2.1 { stopping := false }
    [InEvent.browserStop, InEvent.browserStopped, InEvent.browserStop]
    (by simp) (by intro e he; fin_cases he <;> rfl)

/-- Claim C9: running the injected script twice in succession on the same page
with no intervening navigation leaves the visible page state of the single
run: the document title, the number of overlay elements, and the number of
appended style elements are unchanged. -/
theorem c9_injection_idempotent_visible (label : String) (p : PageState) :
    (screensaver_script label (screensaver_script label p)).title =
      (screensaver_script label p).title ∧
    (screensaver_script label (screensaver_script label p)).overlays =
      (screensaver_script label p).overlays ∧
    (screensaver_script label (screensaver_script label p)).headStyles =
      (screensaver_script label p).headStyles := by
  rcases p with ⟨ar, hb, ld, ti, ov, hs, pr⟩
  cases ar
  · by_cases hbody : hb
    · by_cases hti : ti = loading_title label
      · subst hbody
        simp [screensaver_script, hti]
      · subst hbody
        simp [screensaver_script, hti]
    · have hb' : hb = false := by simpa using hbody
      subst hb'
      by_cases hti : ti = loading_title label <;> cases ld <;>
        simp [screensaver_script, hti]
  · simp [screensaver_script]

/-- Claim C2: when the tab-closed handler runs with stopping false and the
queried open-tab count is at most one, it dispatches exactly one
navigate-to-url event, with url about:blank and the new-tab flag true, awaits
its completion, and then runs the overlay broadcast; it returns normally and
leaves the watchdog state unchanged. -/
theorem c2_last_tab_creates_placeholder (s : WatchdogState) (env : TabClosedEnv)
    (l : List PageTarget) (hs : s.stopping = false) (hp : env.pages = Except.ok l)
    (hl : l.length ≤ 1) (hn : env.navigateOk = Except.ok ()) :
    (on_TabClosedEvent s env).2.1 =
      Action.listPages :: Action.navigate "about:blank" true ::
        (show_dvd_screensaver_on_about_blank_tabs env.bcast).1 ∧
    navsOf (on_TabClosedEvent s env).2.1 = [("about:blank", true)] ∧
    (on_TabClosedEvent s env).2.2 = Except.ok () ∧
    (on_TabClosedEvent s env).1 = s := by
  have htr : (on_TabClosedEvent s env).2 =
      (Action.listPages :: Action.navigate "about:blank" true ::
         (show_dvd_screensaver_on_about_blank_tabs env.bcast).1,
       Except.ok ()) := by
    simp [on_TabClosedEvent, tab_closed_result, hs, hp, hl, hn]
  refine ⟨by rw [htr], ?_, by rw [htr], rfl⟩
  rw [htr]
  have hb := navsOf_broadcast env.bcast
  simp only [navsOf, List.filterMap_cons] at hb ⊢
  rw [hb]

/-- Witness for C2 at a concrete input: one open tab, successful collaborator
calls; the handler's trace carries exactly one navigation, to about:blank in
a new tab. -/
theorem c2_last_tab_creates_placeholder_witness :
    navsOf (on_TabClosedEvent { stopping := false }
      { pages := Except.ok [{ targetId := "a", url := "https://x" }]
        navigateOk := Except.ok ()
        bcast := idealBroadcastEnv [{ targetId := "n", url := "about:blank" }]
        ensure :=
          { pages := Except.ok [{ targetId := "a", url := "https://x" }]
            navigateOk := Except.ok ()
            bcast := idealBroadcastEnv [] } }).2.1 = [("about:blank", true)] :=
  (c2_last_tab_creates_placeholder { stopping := false } _
    [{ targetId := "a", url := "https://x" }] rfl rfl (by decide) rfl).2.1

/-- Claim C4: when the tab-closed handler runs with stopping false and
observes more than one tab, the reconciliation helper re-lists the tabs and
dispatches a placeholder navigation if and only if the second listing is
empty; when the second listing is non-empty the whole handler performs only
the two listing calls and dispatches nothing. -/
theorem c4_ensure_creates_iff_second_listing_empty (s : WatchdogState)
    (env : TabClosedEnv) (l l2 : List PageTarget) (hs : s.stopping = false)
    (hp : env.pages = Except.ok l) (hl : 1 < l.length)
    (hp2 : env.ensure.pages = Except.ok l2) :
    navsOf (on_TabClosedEvent s env).2.1 =
      (if l2 = [] then [("about:blank", true)] else []) ∧
    (l2 ≠ [] → (on_TabClosedEvent s env).2.1 = [Action.listPages, Action.listPages]) ∧
    (l2 = [] → env.ensure.navigateOk = Except.ok () →
      (on_TabClosedEvent s env).2.1 =
        Action.listPages :: Action.listPages :: Action.navigate "about:blank" true ::
          (show_dvd_screensaver_on_about_blank_tabs env.ensure.bcast).1) := by
  have hnle : ¬ (l.length ≤ 1) := by omega
  have htr : (on_TabClosedEvent s env).2.1 =
      Action.listPages :: (check_and_ensure_about_blank_tab env.ensure).1 := by
    simp [on_TabClosedEvent, tab_closed_result, hs, hp, hnle]
  by_cases h2 : l2 = []
  · subst h2
    rcases hnav : env.ensure.navigateOk with u | u
    · have he : (check_and_ensure_about_blank_tab env.ensure).1 =
          [Action.listPages, Action.navigate "about:blank" true] := by
        simp [check_and_ensure_about_blank_tab, ensure_body, catchAll, hp2, hnav]
      refine ⟨?_, by simp, ?_⟩
      · rw [htr, he, if_pos rfl]
        rfl
      · intro _ hok
        simp at hok
    · have he : (check_and_ensure_about_blank_tab env.ensure).1 =
          Action.listPages :: Action.navigate "about:blank" true ::
            (show_dvd_screensaver_on_about_blank_tabs env.ensure.bcast).1 := by
        simp [check_and_ensure_about_blank_tab, ensure_body, catchAll, hp2, hnav]
      refine ⟨?_, by simp, fun _ _ => by rw [htr, he]⟩
      rw [htr, he, if_pos rfl]
      have hb := navsOf_broadcast env.ensure.bcast
      simp only [navsOf, List.filterMap_cons] at hb ⊢
      rw [hb]
  · have h0 : ¬ (l2.length = 0) := by
      simpa [List.length_eq_zero] using h2
    have he : (check_and_ensure_about_blank_tab env.ensure).1 = [Action.listPages] := by
      simp [check_and_ensure_about_blank_tab, ensure_body, catchAll, hp2, h0]
    refine ⟨?_, fun _ => by rw [htr, he], fun h => absurd h h2⟩
    rw [htr, he, if_neg h2]
    rfl

/-- Witness for C4 at a concrete input: two tabs observed, second listing
still non-empty; the handler performs exactly the two listings and no
navigation. -/
theorem c4_ensure_witness :
    (on_TabClosedEvent { stopping := false }
      { pages := Except.ok [{ targetId := "a", url := "about:blank" },
                            { targetId := "b", url := "https://x" }]
        navigateOk := Except.ok ()
        bcast := idealBroadcastEnv []
        ensure :=
          { pages := Except.ok [{ targetId := "a", url := "about:blank" }]
            navigateOk := Except.ok ()
            bcast := idealBroadcastEnv [] } }).2.1 =
      [Action.listPages, Action.listPages] :=
  (c4_ensure_creates_iff_second_listing_empty { stopping := false } _
    [{ targetId := "a", url := "about:blank" }, { targetId := "b", url := "https://x" }]
    [{ targetId := "a", url := "about:blank" }] rfl rfl (by decide) rfl).2.1 (by decide)

/-- Claim C7: the tab-created handler invokes the overlay broadcast exactly
when the created url is the string about:blank, performs nothing for any
other url, and behaves identically whatever the stopping flag: its result
does not depend on the watchdog state and the state is returned unchanged. -/
theorem c7_tab_created_iff_about_blank (s s' : WatchdogState) (url : String)
    (env : BroadcastEnv) :
    ((Action.listPages ∈ (on_TabCreatedEvent s url env).2.1) ↔ url = "about:blank") ∧
    (url ≠ "about:blank" → on_TabCreatedEvent s url env = (s, ([], Except.ok ()))) ∧
    (url = "about:blank" →
      (on_TabCreatedEvent s url env).2 = show_dvd_screensaver_on_about_blank_tabs env) ∧
    (on_TabCreatedEvent s url env).2 = (on_TabCreatedEvent s' url env).2 := by
  by_cases h : url = "about:blank" <;>
    simp [on_TabCreatedEvent, h, listPages_mem_broadcast env]

/-- Witness for C7 at a concrete input: a non-placeholder url is ignored even
with stopping false, and an about:blank creation still broadcasts with
stopping true. -/
theorem c7_tab_created_witness :
    on_TabCreatedEvent { stopping := false } "https://x" (idealBroadcastEnv []) =
      ({ stopping := false }, ([], Except.ok ())) ∧
    (on_TabCreatedEvent { stopping := true } "about:blank" (idealBroadcastEnv [])).2 =
      show_dvd_screensaver_on_about_blank_tabs (idealBroadcastEnv []) :=
  ⟨(c7_tab_created_iff_about_blank { stopping := false } { stopping := false }
      "https://x" (idealBroadcastEnv [])).2.1 (by decide),
   (c7_tab_created_iff_about_blank { stopping := true } { stopping := false }
      "about:blank" (idealBroadcastEnv [])).2.2.1 rfl⟩

/-- Claim C3 counterexample: with stopping false, a raise from the very first
tab-listing call inside the tab-closed handler is not caught there and
propagates out of the handler, refuting the claim that every handler catches
collaborator failures at the point of the call. -/
theorem c3_counterexample_listing_failure_propagates :
    (on_TabClosedEvent { stopping := false }
      { pages := Except.error ()
        navigateOk := Except.ok ()
        bcast := idealBroadcastEnv []
        ensure :=
          { pages := Except.ok []
            navigateOk := Except.ok ()
            bcast := idealBroadcastEnv [] } }).2.2 = Except.error () := rfl

/-- Claim C3 (amended): the helper routines and the tab-created handler catch
every collaborator failure and always return normally; but the tab-closed
handler has no such guard around its own direct calls: it lets an exception
escape exactly when stopping is false and either its first listing raises or
the listing reports at most one tab and awaiting the placeholder navigation
raises. -/
theorem c3_exception_containment_amended :
    (∀ e : EnsureEnv, (check_and_ensure_about_blank_tab e).2 = Except.ok ()) ∧
    (∀ e : BroadcastEnv, (show_dvd_screensaver_on_about_blank_tabs e).2 = Except.ok ()) ∧
    (∀ (e : InjectEnv) (tid : String),
        (show_dvd_screensaver_loading_animation_cdp e tid).2 = Except.ok ()) ∧
    (∀ (s : WatchdogState) (url : String) (e : BroadcastEnv),
        (on_TabCreatedEvent s url e).2.2 = Except.ok ()) ∧
    (∀ (s : WatchdogState) (e : TabClosedEnv),
        (on_TabClosedEvent s e).2.2 = Except.error () ↔
          (s.stopping = false ∧
            (e.pages = Except.error () ∨
              ∃ l, e.pages = Except.ok l ∧ l.length ≤ 1 ∧
                e.navigateOk = Except.error ()))) := by
  refine ⟨fun e => rfl, fun e => rfl, fun e tid => rfl, ?_, ?_⟩
  · intro s url e
    by_cases h : url = "about:blank" <;>
      simp [on_TabCreatedEvent, h, show_dvd_screensaver_on_about_blank_tabs, catchAll]
  · intro s e
    rcases hs : s.stopping
    · rcases hp : e.pages with u | l
      · simp [on_TabClosedEvent, tab_closed_result, hs, hp]
      · by_cases hl : l.length ≤ 1
        · rcases hn : e.navigateOk with u | u
          · simp [on_TabClosedEvent, tab_closed_result, hs, hp, hl, hn]
          · simp [on_TabClosedEvent, tab_closed_result, hs, hp, hl, hn]
        · simp [on_TabClosedEvent, tab_closed_result, hs, hp, hl,
            check_and_ensure_about_blank_tab, catchAll]
    · simp [on_TabClosedEvent, tab_closed_result, hs]

/-- Witness for C3 (amended) at a concrete input: a failing navigate await in
the last-tab branch escapes the tab-closed handler. -/
theorem c3_exception_containment_amended_witness :
    (on_TabClosedEvent { stopping := false }
      { pages := Except.ok ([] : List PageTarget)
        navigateOk := Except.error ()
        bcast := idealBroadcastEnv []
        ensure :=
          { pages := Except.ok []
            navigateOk := Except.ok ()
            bcast := idealBroadcastEnv [] } }).2.2 = Except.error () :=
  (c3_exception_containment_amended.2.2.2.2 { stopping := false } _).mpr
    ⟨rfl, Or.inr ⟨[], rfl, by decide, rfl⟩⟩

/-- Claim C6: over any successful listing, the overlay broadcast attempts the
injection routine against exactly the listed tabs whose url is the string
about:blank, in order, and its script-evaluation call only ever touches such
a tab. -/
theorem c6_broadcast_targets_only_about_blank (env : BroadcastEnv)
    (l : List PageTarget) (hp : env.pages = Except.ok l) :
    attemptedTargets (show_dvd_screensaver_on_about_blank_tabs env).1 =
      (l.filter (fun t => t.url == "about:blank")).map (fun t => t.targetId) ∧
    (∀ tid : String,
      Action.evaluateScript tid ∈ (show_dvd_screensaver_on_about_blank_tabs env).1 →
      ∃ t : PageTarget, t ∈ l ∧ t.targetId = tid ∧ t.url = "about:blank") := by
  constructor
  · simp only [show_dvd_screensaver_on_about_blank_tabs, broadcast_body, catchAll, hp]
    have h := attemptedTargets_injection_flatMap env.inj
      (l.filter (fun t => t.url == "about:blank"))
    simpa [attemptedTargets] using h
  · intro tid hmem
    simp only [show_dvd_screensaver_on_about_blank_tabs, broadcast_body, catchAll, hp,
      List.mem_cons, List.mem_flatMap] at hmem
    rcases hmem with h | ⟨t, ht, hin⟩
    · cases h
    · have hfil := List.mem_filter.mp ht
      have hurl : t.url = "about:blank" := by simpa using hfil.2
      have := evaluate_mem_injection (env.inj t.targetId) tid t.targetId hin
      exact ⟨t, hfil.1, this.symm, hurl⟩

/-- Witness for C6 at a concrete input: a mixed listing with failing
injections still targets exactly the about:blank tabs. -/
theorem c6_broadcast_targets_only_about_blank_witness :
    attemptedTargets (show_dvd_screensaver_on_about_blank_tabs
      { pages := Except.ok [{ targetId := "t0", url := "about:blank" },
                            { targetId := "t1", url := "https://x" },
                            { targetId := "t2", url := "about:blank" }]
        inj := fun _ => { acquireOk := false, evalOk := true } }).1 = ["t0", "t2"] := by
  have h := (c6_broadcast_targets_only_about_blank
    { pages := Except.ok [{ targetId := "t0", url := "about:blank" },
                          { targetId := "t1", url := "https://x" },
                          { targetId := "t2", url := "about:blank" }]
      inj := fun _ => { acquireOk := false, evalOk := true } }
    [{ targetId := "t0", url := "about:blank" },
     { targetId := "t1", url := "https://x" },
     { targetId := "t2", url := "about:blank" }] rfl).1
  rw [h]
  rfl

/-- Claim C10: the injection routine emits the placeholder-shown event for its
target exactly when both the session acquisition and the script submission
succeed; a failure is swallowed (the routine returns normally), and within a
broadcast every listed about:blank tab has the injection attempted on it
whatever happens to the other tabs. -/
theorem c10_emit_shown_iff_submission_succeeds (e : InjectEnv) (tid : String) :
    ((Action.emitDvdShown tid ∈ (show_dvd_screensaver_loading_animation_cdp e tid).1) ↔
      (e.acquireOk = true ∧ e.evalOk = true)) ∧
    ((show_dvd_screensaver_loading_animation_cdp e tid).2 = Except.ok ()) ∧
    (∀ (benv : BroadcastEnv) (l : List PageTarget) (t : PageTarget),
      benv.pages = Except.ok l → t ∈ l → t.url = "about:blank" →
      Action.acquireSession t.targetId ∈ (show_dvd_screensaver_on_about_blank_tabs benv).1) := by
  refine ⟨?_, rfl, ?_⟩
  · rcases e with ⟨a, v⟩
    cases a <;> cases v <;>
      simp [show_dvd_screensaver_loading_animation_cdp, injection_body, catchAll]
  · intro benv l t hp ht hurl
    simp only [show_dvd_screensaver_on_about_blank_tabs, broadcast_body, catchAll, hp,
      List.mem_cons, List.mem_flatMap]
    refine Or.inr ⟨t, List.mem_filter.mpr ⟨ht, by simpa using hurl⟩, ?_⟩
    exact acquire_mem_injection (benv.inj t.targetId) t.targetId

/-- Witness for C10 at a concrete input: with a failing acquisition on one
tab, its own injection emits nothing while the broadcast still attempts the
other about:blank tab. -/
theorem c10_emit_shown_witness :
    Action.acquireSession "t1" ∈ (show_dvd_screensaver_on_about_blank_tabs
      { pages := Except.ok [{ targetId := "t0", url := "about:blank" },
                            { targetId := "t1", url := "about:blank" }]
        inj := fun _ => { acquireOk := false, evalOk := true } }).1 :=
  (c10_emit_shown_iff_submission_succeeds { acquireOk := false, evalOk := true } "t1").2.2
    { pages := Except.ok [{ targetId := "t0", url := "about:blank" },
                          { targetId := "t1", url := "about:blank" }]
      inj := fun _ => { acquireOk := false, evalOk := true } }
    [{ targetId := "t0", url := "about:blank" },
     { targetId := "t1", url := "about:blank" }]
    { targetId := "t1", url := "about:blank" } rfl (by decide) rfl

end AboutBlankWatchdog
